import Mathlib

/-!
Shallow embedding of the bytecode interpreter in src/main.py (class Frame and
class VirtualMachine).  Python dicts are modelled as association lists where
the leftmost binding of a key is authoritative; the frames' `locals` and
`globals` dicts are shared mutable objects in the source, so they live in an
explicit heap of environments and a frame holds indices into that heap
(`VirtualMachine.run` passes the same dict as both globals and locals, which
becomes the two indices being equal).  Machine behaviour that raises a Python
exception is modelled with `Except Err`.
-/

namespace PyVM

mutual

/-- Runtime values: the value kinds the interpreter manipulates.  A code
object is itself a value (`MAKE_FUNCTION` pops it from the stack); a function
value records the code, the raw popped defaults operand (absent when flag bit
1 was unset, in which case the closure body's reference to `defaults` fails),
and the defining frame's builtins/globals/locals references, mirroring the
closure `f` in `Frame.make_function` capturing `self`. -/
inductive V where
  | vnone : V
  | vbool : Bool → V
  | vint : Int → V
  | vstr : String → V
  | vlist : List V → V
  | vtuple : List V → V
  | viter : List V → V
  | vcode : Code → V
  | vfunc : Code → Option V → List (String × V) → Nat → Nat → V
  | vbound : V → V → V
  | vobj : List (String × V) → V

/-- The static code unit: co_argcount, co_varnames, co_names and the decoded
instruction list (dis.get_instructions output). -/
inductive Code where
  | mk : Nat → List String → List String → List Instr → Code

/-- One decoded instruction: lowercased opname, the raw numeric arg (used by
LOAD_ATTR), the decoded argval and the stream offset. -/
inductive Instr where
  | mk : String → Option Nat → V → Nat → Instr

end

def Code.argcount : Code → Nat
  | .mk a _ _ _ => a

def Code.varnames : Code → List String
  | .mk _ v _ _ => v

def Code.conames : Code → List String
  | .mk _ _ n _ => n

def Code.instrs : Code → List Instr
  | .mk _ _ _ i => i

def Instr.opname : Instr → String
  | .mk o _ _ _ => o

def Instr.arg : Instr → Option Nat
  | .mk _ a _ _ => a

def Instr.argval : Instr → V
  | .mk _ _ v _ => v

def Instr.offset : Instr → Nat
  | .mk _ _ _ o => o

/-- A Python dict, as an association list; the leftmost binding wins. -/
abbrev Env := List (String × V)

/-- Dict lookup: first binding of the key. -/
def envLookup : Env → String → Option V
  | [], _ => none
  | (k, v) :: e, name => if k = name then some v else envLookup e name

/-- Dict assignment `d[k] = v`: the new binding shadows older ones. -/
def envInsert (e : Env) (k : String) (v : V) : Env := (k, v) :: e

/-- Dict update `base.update(upd)`: every binding of `upd` wins over `base`,
and within `upd` the leftmost (most recent) binding stays authoritative. -/
def envUpdate (base upd : Env) : Env := upd ++ base

/-- The store of shared mutable scope dicts; frames hold indices into it. -/
abbrev Heap := List Env

def hget (h : Heap) (r : Nat) : Env := (h[r]?).getD []

def hset (h : Heap) (r : Nat) (e : Env) : Heap := h.set r e

/-- One activation of a code unit, mirroring Frame.__init__: code, builtins,
globals and locals (the two latter as heap references), the data stack (top
of stack at the head of the list), the instruction index ind_op, and the
return_value attribute (assigned by handlers, never read by run). -/
structure FrameState where
  code : Code
  builtins : Env
  globalsRef : Nat
  localsRef : Nat
  stack : List V
  ind_op : Nat
  return_value : V

/-- Typed failures: each constructor names the Python exception the source
raises (the spec's NameLookupError is NameError, its ArityMismatchError on
unpacking is the assert's AssertionError, and dispatchFailure is the
AttributeError raised by getattr(self, opname) when the Frame class has no
method of that name). -/
inductive Err where
  | nameError : String → Err
  | attributeError : String → Err
  | assertionError : Err
  | typeError : String → Err
  | keyError : Err
  | indexError : Err
  | stackUnderflow : Err
  | dispatchFailure : String → Err
  | unboundLocalError : String → Err
  | outOfFuel : Err
deriving DecidableEq

/-- Frame.popn: the top n values, deepest first, and the remaining stack;
n <= 0 returns the empty list and leaves the stack alone, n larger than the
depth drains the whole stack (Python list slicing l[-n:]). -/
def popn (n : Int) (s : List V) : List V × List V :=
  if 0 < n then ((s.take n.toNat).reverse, s.drop n.toNat) else ([], s)

/-- Python truthiness of the modelled value kinds. -/
def truthy : V → Bool
  | .vnone => false
  | .vbool b => b
  | .vint n => n ≠ 0
  | .vstr s => s ≠ ""
  | .vlist xs => !xs.isEmpty
  | .vtuple xs => !xs.isEmpty
  | .viter _ => true
  | .vcode _ => true
  | .vfunc _ _ _ _ _ => true
  | .vbound _ _ => true
  | .vobj _ => true

/-- The offset_to_index table built in Frame.run: maps a stream offset to the
index of the last instruction carrying it (dict comprehension, later entries
overwrite). -/
def offsetToIndex (instrs : List Instr) (off : Int) : Option Nat :=
  (List.range instrs.length).foldl
    (fun acc i =>
      match instrs[i]? with
      | some ins => if (ins.offset : Int) = off then some i else acc
      | none => acc)
    none

/-- Elements of a value the way Python len() and indexing see them (lists,
tuples, and strings as their characters); other kinds have no len. -/
def seqElems : V → Option (List V)
  | .vlist xs => some xs
  | .vtuple xs => some xs
  | .vstr s => some (s.data.map (fun ch => V.vstr (String.mk [ch])))
  | _ => none

/-- iter(value) for the modelled kinds; iterating an iterator returns it. -/
def iterOf : V → Option V
  | .vlist xs => some (.viter xs)
  | .vtuple xs => some (.viter xs)
  | .vstr s => some (.viter (s.data.map (fun ch => V.vstr (String.mk [ch]))))
  | .viter xs => some (.viter xs)
  | _ => none

def toIntOp : V → Option Int
  | .vint n => some n
  | _ => none

def toStrOp : V → Option String
  | .vstr s => some s
  | _ => none

/-- Frame.load_name: locals, then globals, then builtins; NameError if the
name is in none of the three. -/
def load_name (name : String) (h : Heap) (fr : FrameState) :
    Except Err (Heap × FrameState) :=
  match envLookup (hget h fr.localsRef) name with
  | some v => .ok (h, { fr with stack := v :: fr.stack })
  | none =>
    match envLookup (hget h fr.globalsRef) name with
    | some v => .ok (h, { fr with stack := v :: fr.stack })
    | none =>
      match envLookup fr.builtins name with
      | some v => .ok (h, { fr with stack := v :: fr.stack })
      | none => .error (.nameError name)

/-- Frame.load_global: globals then builtins. -/
def load_global (name : String) (h : Heap) (fr : FrameState) :
    Except Err (Heap × FrameState) :=
  match envLookup (hget h fr.globalsRef) name with
  | some v => .ok (h, { fr with stack := v :: fr.stack })
  | none =>
    match envLookup fr.builtins name with
    | some v => .ok (h, { fr with stack := v :: fr.stack })
    | none => .error (.nameError name)

/-- Frame.load_const. -/
def load_const (v : V) (h : Heap) (fr : FrameState) :
    Except Err (Heap × FrameState) :=
  .ok (h, { fr with stack := v :: fr.stack })

/-- Frame.load_fast: locals[arg], KeyError when absent. -/
def load_fast (name : String) (h : Heap) (fr : FrameState) :
    Except Err (Heap × FrameState) :=
  match envLookup (hget h fr.localsRef) name with
  | some v => .ok (h, { fr with stack := v :: fr.stack })
  | none => .error .keyError

/-- Frame.store_name: pop and write into locals. -/
def store_name (name : String) (h : Heap) (fr : FrameState) :
    Except Err (Heap × FrameState) :=
  match fr.stack with
  | [] => .error .stackUnderflow
  | v :: s =>
    .ok (hset h fr.localsRef (envInsert (hget h fr.localsRef) name v),
         { fr with stack := s })

/-- Frame.store_fast: identical body to store_name in the source. -/
def store_fast (name : String) (h : Heap) (fr : FrameState) :
    Except Err (Heap × FrameState) :=
  store_name name h fr

/-- Frame.return_const: assigns self.return_value and nothing else; the run
loop does not inspect this attribute, so execution continues. -/
def return_const (v : V) (h : Heap) (fr : FrameState) :
    Except Err (Heap × FrameState) :=
  .ok (h, { fr with return_value := v })

/-- Frame.pop_top. -/
def pop_top (h : Heap) (fr : FrameState) : Except Err (Heap × FrameState) :=
  match fr.stack with
  | [] => .error .stackUnderflow
  | _ :: s => .ok (h, { fr with stack := s })

/-- Frame.get_iter: pop a value and push iter(value). -/
def get_iter (h : Heap) (fr : FrameState) : Except Err (Heap × FrameState) :=
  match fr.stack with
  | [] => .error .stackUnderflow
  | v :: s =>
    match iterOf v with
    | some it => .ok (h, { fr with stack := it :: s })
    | none => .error (.typeError "value is not iterable")

/-- Frame.for_iter: peek the iterator (it stays on the stack); push the next
value on success, or on exhaustion jump to the target offset, pushing
nothing.  next() advancing the mutable iterator object in place is modelled
by replacing the stack slot with the advanced iterator. -/
def for_iter (target : Int) (h : Heap) (fr : FrameState) :
    Except Err (Heap × FrameState) :=
  match fr.stack with
  | [] => .error .stackUnderflow
  | .viter (v :: rest) :: s =>
    .ok (h, { fr with stack := v :: .viter rest :: s })
  | .viter [] :: _ =>
    match offsetToIndex fr.code.instrs target with
    | some j => .ok (h, { fr with ind_op := j })
    | none => .error .keyError
  | _ :: _ => .error (.typeError "next target is not an iterator")

/-- Frame.end_for: delegates to pop_top, removing the exhausted iterator. -/
def end_for (h : Heap) (fr : FrameState) : Except Err (Heap × FrameState) :=
  pop_top h fr

/-- Frame.jump_backward. -/
def jump_backward (target : Int) (h : Heap) (fr : FrameState) :
    Except Err (Heap × FrameState) :=
  match offsetToIndex fr.code.instrs target with
  | some j => .ok (h, { fr with ind_op := j })
  | none => .error .keyError

/-- Frame.jump_forward: same body as jump_backward. -/
def jump_forward (target : Int) (h : Heap) (fr : FrameState) :
    Except Err (Heap × FrameState) :=
  jump_backward target h fr

/-- Frame.pop_jump_if_false: pop; jump when falsy, else fall through. -/
def pop_jump_if_false (target : Int) (h : Heap) (fr : FrameState) :
    Except Err (Heap × FrameState) :=
  match fr.stack with
  | [] => .error .stackUnderflow
  | v :: s =>
    if truthy v then .ok (h, { fr with stack := s })
    else
      match offsetToIndex fr.code.instrs target with
      | some j => .ok (h, { fr with stack := s, ind_op := j })
      | none => .error .keyError

/-- Frame.pop_jump_is_true: the conditional-on-true handler as the source
spells it; note the name, which no opcode produced by dis matches. -/
def pop_jump_is_true (target : Int) (h : Heap) (fr : FrameState) :
    Except Err (Heap × FrameState) :=
  match fr.stack with
  | [] => .error .stackUnderflow
  | v :: s =>
    if truthy v then
      match offsetToIndex fr.code.instrs target with
      | some j => .ok (h, { fr with stack := s, ind_op := j })
      | none => .error .keyError
    else .ok (h, { fr with stack := s })

/-- Frame.unpack_sequence: assert the popped sequence's length equals the
requested count (AssertionError otherwise, before any stack change), then
extend the stack with the elements reversed, so the first element ends on
top of the stack. -/
def unpack_sequence (count : Int) (h : Heap) (fr : FrameState) :
    Except Err (Heap × FrameState) :=
  match fr.stack with
  | [] => .error .indexError
  | top :: s =>
    match seqElems top with
    | none => .error (.typeError "object has no len")
    | some xs =>
      if (xs.length : Int) = count then
        .ok (h, { fr with stack := xs ++ s })
      else .error .assertionError

/-- Frame.copy: assert i > 0, then push data_stack[-i]. -/
def copy (i : Int) (h : Heap) (fr : FrameState) :
    Except Err (Heap × FrameState) :=
  if i ≤ 0 then .error .assertionError
  else
    match fr.stack[(i - 1).toNat]? with
    | some v => .ok (h, { fr with stack := v :: fr.stack })
    | none => .error .indexError

/-- Frame.build_tuple: tuple the top count slots preserving their order. -/
def build_tuple (count : Int) (h : Heap) (fr : FrameState) :
    Except Err (Heap × FrameState) :=
  if count = 0 then .ok (h, { fr with stack := .vtuple [] :: fr.stack })
  else
    .ok (h, { fr with
      stack := V.vtuple ((fr.stack.take count.toNat).reverse) ::
        fr.stack.drop count.toNat })

/-- Frame.build_list. -/
def build_list (count : Int) (h : Heap) (fr : FrameState) :
    Except Err (Heap × FrameState) :=
  if count = 0 then .ok (h, { fr with stack := .vlist [] :: fr.stack })
  else
    .ok (h, { fr with
      stack := V.vlist ((fr.stack.take count.toNat).reverse) ::
        fr.stack.drop count.toNat })

/-- getattr(value, name) over the modelled kinds: only object values carry
attributes here. -/
def getattrV : V → String → Option V
  | .vobj attrs, name => envLookup attrs name
  | _, _ => none

/-- attr.__get__(value, type(value)): function values are descriptors and
bind into a bound method; the other modelled kinds have no such member
(AttributeError in the source). -/
def dunderGet : V → V → Option V
  | f@(.vfunc _ _ _ _ _), recv => some (.vbound f recv)
  | _, _ => none

/-- Frame.load_attr, dispatched on the raw numeric arg: with the low bit set
it tries to bind name co_names[namei >> 1] as a method (pushing method then
receiver); on AttributeError it pushes None and then retries the plain
getattr, whose own failure (attribute entirely absent) propagates.  The
error-carrying branch discards the already-pushed None along with the whole
frame, as the fatal exception does in the source. -/
def load_attr (arg : Option Nat) (h : Heap) (fr : FrameState) :
    Except Err (Heap × FrameState) :=
  match arg with
  | none => .error (.typeError "LOAD_ATTR without numeric arg")
  | some namei =>
    match fr.stack with
    | [] => .error .stackUnderflow
    | value :: s =>
      match fr.code.conames[namei >>> 1]? with
      | none => .error .indexError
      | some name =>
        if namei % 2 = 1 then
          match getattrV value name with
          | some attr =>
            match dunderGet attr value with
            | some m => .ok (h, { fr with stack := value :: m :: s })
            | none => .ok (h, { fr with stack := attr :: .vnone :: s })
          | none => .error (.attributeError name)
        else
          match getattrV value name with
          | some attr => .ok (h, { fr with stack := attr :: s })
          | none => .error (.attributeError name)

/-- One parameter-binding step of the closure f inside Frame.make_function:
positional argument if one exists at this index, else the matching tail
default; referencing `defaults` fails when MAKE_FUNCTION's flag bit 1 never
popped one. -/
def bindStep (c : Code) (dflt : Option V) (args : List V) (parsed : Env)
    (i : Nat) : Except Err Env :=
  if i < args.length then
    match c.varnames[i]?, args[i]? with
    | some nm, some a => .ok (envInsert parsed nm a)
    | _, _ => .error .indexError
  else
    match dflt with
    | none => .error (.unboundLocalError "defaults")
    | some dv =>
      match seqElems dv with
      | none => .error (.typeError "object has no len")
      | some ds =>
        if (c.argcount : Int) - (ds.length : Int) ≤ (i : Int) then
          match c.varnames[i]?,
                ds[((i : Int) - ((c.argcount : Int) - (ds.length : Int))).toNat]? with
          | some nm, some d => .ok (envInsert parsed nm d)
          | _, _ => .error .indexError
        else .ok parsed

/-- The full binding loop of f: for i in range(co_argcount). -/
def bindArgsE (c : Code) (dflt : Option V) (args : List V) : Except Err Env :=
  (List.range c.argcount).foldlM (bindStep c dflt args) []

/-- The body of the closure f up to creating the child frame: bind the
parameters, apply keyword overrides, copy the defining frame's locals as
they are NOW (dict(self.locals) runs at call time), lay the parsed
arguments over that copy, and allocate the child frame's locals. -/
def prepareCall (h : Heap) (c : Code) (dflt : Option V) (bins : Env)
    (gref lref : Nat) (args : List V) (kwargs : Env) :
    Except Err (Heap × FrameState) :=
  match bindArgsE c dflt args with
  | .error e => .error e
  | .ok parsed0 =>
    let parsed := envUpdate parsed0 kwargs
    let f_locals := envUpdate (hget h lref) parsed
    .ok (h ++ [f_locals],
         { code := c, builtins := bins, globalsRef := gref,
           localsRef := h.length, stack := [], ind_op := 0,
           return_value := .vnone })

/-- Frame.make_function: pop, per the flag bits and in this order, the
closure bundle, the annotation dict and the keyword-default dict (all three
popped and discarded by the source), then the positional defaults, then the
code object, and push the function value capturing the defining frame's
scope references. -/
def make_function (flags : Int) (h : Heap) (fr : FrameState) :
    Except Err (Heap × FrameState) :=
  let fl := flags.toNat
  let pop1 : List V → Except Err (V × List V) := fun s =>
    match s with
    | [] => .error .stackUnderflow
    | v :: s2 => .ok (v, s2)
  do
    let s1 ← if fl &&& 8 ≠ 0 then (pop1 fr.stack).map (fun p => p.2)
             else pure fr.stack
    let s2 ← if fl &&& 4 ≠ 0 then (pop1 s1).map (fun p => p.2) else pure s1
    let s3 ← if fl &&& 2 ≠ 0 then (pop1 s2).map (fun p => p.2) else pure s2
    let ds ← if fl &&& 1 ≠ 0 then (pop1 s3).map (fun p => (some p.1, p.2))
             else pure (none, s3)
    let cv ← pop1 ds.2
    match cv.1 with
    | .vcode c =>
      .ok (h, { fr with
        stack := V.vfunc c ds.1 fr.builtins fr.globalsRef fr.localsRef :: cv.2 })
    | _ => .error (.typeError "MAKE_FUNCTION without a code object")

/-- Resolve a popped callee the way f(*arguments) does: a function value
calls directly, a bound method prepends its receiver. -/
def resolveCallee : V → List V →
    Except Err (Code × Option V × Env × Nat × Nat × List V)
  | .vfunc c d b g l, args => .ok (c, d, b, g, l, args)
  | .vbound (.vfunc c d b g l) recv, args => .ok (c, d, b, g, l, recv :: args)
  | _, _ => .error (.typeError "value is not callable")

/-- Operand projection for handlers that expect an integer argval. -/
def withInt (v : V) (k : Int → Except Err (Heap × FrameState)) :
    Except Err (Heap × FrameState) :=
  match toIntOp v with
  | some n => k n
  | none => .error (.typeError "operand is not an int")

/-- Operand projection for handlers that expect a name argval. -/
def withStr (v : V) (k : String → Except Err (Heap × FrameState)) :
    Except Err (Heap × FrameState) :=
  match toStrOp v with
  | some s => k s
  | none => .error (.typeError "operand is not a str")

/-- The per-instruction branch of Frame.run: getattr(self, opname) resolved
statically over the handler methods embedded here (LOAD_ATTR receives the
raw instr.arg, everything else instr.argval, exactly as the loop body does).
An opname with no matching branch is the AttributeError of getattr on a
method the Frame class does not define; the handlers of the source that no
verified property exercises (binary_op, compare_op, the string/slice/
subscript family, build_set, list_extend, swap) are left out of the
embedding and also fall into that branch.  RETURN_VALUE and CALL are handled
directly by execFrame below. -/
def dispatch (i : Instr) (h : Heap) (fr : FrameState) :
    Except Err (Heap × FrameState) :=
  match i.opname with
  | "resume" => .ok (h, fr)
  | "push_null" => .ok (h, fr)
  | "precall" => .ok (h, fr)
  | "kw_names" => .ok (h, fr)
  | "load_name" => withStr i.argval (fun s => load_name s h fr)
  | "load_global" => withStr i.argval (fun s => load_global s h fr)
  | "load_const" => load_const i.argval h fr
  | "load_fast" => withStr i.argval (fun s => load_fast s h fr)
  | "store_name" => withStr i.argval (fun s => store_name s h fr)
  | "store_fast" => withStr i.argval (fun s => store_fast s h fr)
  | "return_const" => return_const i.argval h fr
  | "pop_top" => pop_top h fr
  | "make_function" => withInt i.argval (fun n => make_function n h fr)
  | "get_iter" => get_iter h fr
  | "for_iter" => withInt i.argval (fun t => for_iter t h fr)
  | "end_for" => end_for h fr
  | "jump_backward" => withInt i.argval (fun t => jump_backward t h fr)
  | "jump_forward" => withInt i.argval (fun t => jump_forward t h fr)
  | "pop_jump_if_false" => withInt i.argval (fun t => pop_jump_if_false t h fr)
  | "pop_jump_is_true" => withInt i.argval (fun t => pop_jump_is_true t h fr)
  | "unpack_sequence" => withInt i.argval (fun n => unpack_sequence n h fr)
  | "copy" => withInt i.argval (fun n => copy n h fr)
  | "build_tuple" => withInt i.argval (fun n => build_tuple n h fr)
  | "build_list" => withInt i.argval (fun n => build_list n h fr)
  | "load_attr" => load_attr i.arg h fr
  | op => .error (.dispatchFailure op)

/-- Frame.run: loop while ind_op indexes into the instruction list;
RETURN_VALUE returns the popped top of stack at once; CALL pops the
arguments and the callee, runs the callee's child frame to completion
(the closure f reads the defining frame's locals from the heap at this
moment) and pushes its result; every other opcode goes through dispatch,
and ind_op is incremented exactly when the handler left it unchanged.
Falling off the end of the instruction list returns None.  The fuel
argument bounds the number of executed instructions and nested calls;
exceeding it is the host's resource exhaustion. -/
def execFrame : Nat → Heap → FrameState → Except Err (Heap × V)
  | 0, _, _ => .error .outOfFuel
  | fuel + 1, h, fr =>
    match fr.code.instrs[fr.ind_op]? with
    | none => .ok (h, .vnone)
    | some i =>
      if i.opname = "return_value" then
        match fr.stack with
        | v :: _ => .ok (h, v)
        | [] => .error .stackUnderflow
      else if i.opname = "call" then
        match toIntOp i.argval with
        | none => .error (.typeError "operand is not an int")
        | some n =>
          let pr := popn n fr.stack
          match pr.2 with
          | [] => .error .stackUnderflow
          | fv :: rest =>
            match resolveCallee fv pr.1 with
            | .error e => .error e
            | .ok (c, d, b, g, l, allArgs) =>
              match prepareCall h c d b g l allArgs [] with
              | .error e => .error e
              | .ok (h2, child) =>
                match execFrame fuel h2 child with
                | .error e => .error e
                | .ok (h3, v) =>
                  execFrame fuel h3
                    { fr with stack := v :: rest, ind_op := fr.ind_op + 1 }
      else
        match dispatch i h fr with
        | .error e => .error e
        | .ok (h2, fr2) =>
          if fr2.ind_op = fr.ind_op then
            execFrame fuel h2 { fr2 with ind_op := fr2.ind_op + 1 }
          else execFrame fuel h2 fr2

/-- VirtualMachine.run: one root frame whose globals and locals are the same
freshly allocated dict. -/
def runCode (c : Code) (bins : Env) (fuel : Nat) : Except Err V :=
  match execFrame fuel [[]]
      { code := c, builtins := bins, globalsRef := 0, localsRef := 0,
        stack := [], ind_op := 0, return_value := .vnone } with
  | .ok p => .ok p.2
  | .error e => .error e

/-- Name resolution order of load_name as a single lookup cascade. -/
def resolveName (lcl gbl bins : Env) (name : String) : Option V :=
  match envLookup lcl name with
  | some v => some v
  | none =>
    match envLookup gbl name with
    | some v => some v
    | none => envLookup bins name

/-- Observer for the closure-capture scenario: perform a STORE_NAME in the
defining frame (a store after the function was built), then run the call
protocol of a function value that carries this frame's locals reference,
and report what the child frame's locals bind the stored name to. -/
def storeThenCall (name : String) (h : Heap) (fr : FrameState) (c : Code)
    (ds : List V) (bins : Env) (gref : Nat) (args : List V) :
    Except Err (Option V) :=
  match store_name name h fr with
  | .error e => .error e
  | .ok (h2, fr2) =>
    match prepareCall h2 c (some (.vtuple ds)) bins gref fr2.localsRef
        args [] with
    | .error e => .error e
    | .ok (h3, child) => .ok (envLookup (hget h3 child.localsRef) name)

/-- Observer for parameter binding: what the parsed arguments bind a name
to, or the error the binding loop raises. -/
def boundValueOf (c : Code) (ds : List V) (args : List V) (nm : String) :
    Except Err (Option V) :=
  match bindArgsE c (some (.vtuple ds)) args with
  | .ok p => .ok (envLookup p nm)
  | .error e => .error e

/-- Observer for the call protocol: what the freshly created child frame's
locals bind a name to, or the error raised before the child exists. -/
def childLocalValue (h : Heap) (c : Code) (ds : List V) (bins : Env)
    (gref lref : Nat) (args : List V) (nm : String) :
    Except Err (Option V) :=
  match prepareCall h c (some (.vtuple ds)) bins gref lref args [] with
  | .ok (h2, child) => .ok (envLookup (hget h2 child.localsRef) nm)
  | .error e => .error e

/-- Observer for the loop protocol: how many times FOR_ITER advances
successfully (recognised by the stack growing by the pushed value, which a
loop body would consume) before it stops pushing. -/
def countAdvances (target : Int) : Nat → Heap → FrameState → Nat
  | 0, _, _ => 0
  | fuel + 1, h, fr =>
    match for_iter target h fr with
    | .ok (h2, fr2) =>
      if fr2.stack.length = fr.stack.length + 1 then
        match fr2.stack with
        | _ :: rest =>
          1 + countAdvances target fuel h2 { fr2 with stack := rest }
        | [] => 0
      else 0
    | .error _ => 0

/-- A closure body that reads the defining scope's x. -/
def childC1 : Code :=
  .mk 0 [] []
    [.mk "load_name" none (.vstr "x") 0,
     .mk "return_value" none .vnone 2]

/-- Build a function while x = 1, store x = 2, then call the function. -/
def mainC1 : Code :=
  .mk 0 [] []
    [.mk "load_const" none (.vint 1) 0,
     .mk "store_name" none (.vstr "x") 2,
     .mk "load_const" none (.vcode childC1) 4,
     .mk "load_const" none (.vtuple []) 6,
     .mk "make_function" none (.vint 1) 8,
     .mk "store_name" none (.vstr "f") 10,
     .mk "load_const" none (.vint 2) 12,
     .mk "store_name" none (.vstr "x") 14,
     .mk "load_name" none (.vstr "f") 16,
     .mk "call" none (.vint 0) 18,
     .mk "return_value" none .vnone 20]

/-- RETURN_CONST 42 as the only instruction. -/
def progC2a : Code := .mk 0 [] [] [.mk "return_const" none (.vint 42) 0]

/-- RETURN_CONST 42 followed by further instructions. -/
def progC2b : Code :=
  .mk 0 [] []
    [.mk "return_const" none (.vint 42) 0,
     .mk "load_const" none (.vint 7) 2,
     .mk "return_value" none .vnone 4]

/-- RETURN_VALUE with instructions after it. -/
def progC2c : Code :=
  .mk 0 [] []
    [.mk "load_const" none (.vint 5) 0,
     .mk "return_value" none .vnone 2,
     .mk "load_const" none (.vint 9) 4,
     .mk "return_value" none .vnone 6]

/-- A callee that declares one required parameter it never touches. -/
def childC3a : Code :=
  .mk 1 ["a"] []
    [.mk "load_const" none (.vint 99) 0,
     .mk "return_value" none .vnone 2]

/-- Build childC3a with empty defaults and call it with no arguments. -/
def mainC3a : Code :=
  .mk 0 [] []
    [.mk "load_const" none (.vcode childC3a) 0,
     .mk "load_const" none (.vtuple []) 2,
     .mk "make_function" none (.vint 1) 4,
     .mk "store_name" none (.vstr "g") 6,
     .mk "load_name" none (.vstr "g") 8,
     .mk "call" none (.vint 0) 10,
     .mk "return_value" none .vnone 12]

/-- A callee that declares one required parameter and loads it by name. -/
def childC3b : Code :=
  .mk 1 ["a"] []
    [.mk "load_name" none (.vstr "a") 0,
     .mk "return_value" none .vnone 2]

/-- Build childC3b with empty defaults and call it with no arguments. -/
def mainC3b : Code :=
  .mk 0 [] []
    [.mk "load_const" none (.vcode childC3b) 0,
     .mk "load_const" none (.vtuple []) 2,
     .mk "make_function" none (.vint 1) 4,
     .mk "store_name" none (.vstr "g") 6,
     .mk "load_name" none (.vstr "g") 8,
     .mk "call" none (.vint 0) 10,
     .mk "return_value" none .vnone 12]

/-- LOAD_ATTR with the method-bind bit on an attribute-less object. -/
def progC4 : Code :=
  .mk 0 [] ["foo"]
    [.mk "load_const" none (.vobj []) 0,
     .mk "load_attr" (some 1) .vnone 2,
     .mk "return_value" none .vnone 4]

/-- A POP_JUMP_IF_TRUE instruction as dis emits it for CPython 3.12. -/
def progC5 : Code :=
  .mk 0 [] []
    [.mk "load_const" none (.vbool true) 0,
     .mk "pop_jump_if_true" none (.vint 4) 2,
     .mk "return_const" none (.vint 0) 4]

/-- Three placeholder instructions giving offsets 0, 2, 4 a jump table. -/
def codeC5 : Code :=
  .mk 0 [] []
    [.mk "resume" none .vnone 0,
     .mk "resume" none .vnone 2,
     .mk "resume" none .vnone 4]

/-- A frame about to run the conditional-on-true handler on a truthy top. -/
def frC5t : FrameState :=
  { code := codeC5, builtins := [], globalsRef := 0, localsRef := 0,
    stack := [.vbool true, .vint 9], ind_op := 0, return_value := .vnone }

/-- The same frame with a falsy top of stack. -/
def frC5f : FrameState :=
  { code := codeC5, builtins := [], globalsRef := 0, localsRef := 0,
    stack := [.vbool false, .vint 9], ind_op := 0, return_value := .vnone }

/-- Heap for the name-resolution witness: locals at 0, globals at 1. -/
def hC6 : Heap := [[("x", .vint 1)], [("x", .vint 2), ("y", .vint 2)]]

/-- Frame for the name-resolution witness. -/
def frC6 : FrameState :=
  { code := .mk 0 [] [] [], builtins := [("b", .vint 3)], globalsRef := 1,
    localsRef := 0, stack := [], ind_op := 0, return_value := .vnone }

/-- Frame for the closure-capture witness: one value on the stack, locals
at heap index 0. -/
def frC1 : FrameState :=
  { code := .mk 0 [] [] [], builtins := [], globalsRef := 0,
    localsRef := 0, stack := [.vint 7], ind_op := 0, return_value := .vnone }

/-- Frame for the attribute-fallback witness: an object whose foo attribute
is a plain (non-descriptor) value. -/
def frC4w : FrameState :=
  { code := .mk 0 [] ["foo"] [], builtins := [], globalsRef := 0,
    localsRef := 0, stack := [.vobj [("foo", .vint 5)]], ind_op := 0,
    return_value := .vnone }

/-- Frame for the loop-protocol witness: a two-element iterator on top of
one unrelated stack slot, with codeC5 supplying the jump table. -/
def frC8 : FrameState :=
  { code := codeC5, builtins := [], globalsRef := 0, localsRef := 0,
    stack := [.viter [.vint 1, .vint 2], .vstr "below"], ind_op := 0,
    return_value := .vnone }

/-- Frame for the unpack witness: a two-element sequence on top. -/
def frC9 : FrameState :=
  { code := .mk 0 [] [] [], builtins := [], globalsRef := 0, localsRef := 0,
    stack := [.vlist [.vint 1, .vint 2], .vnone], ind_op := 0,
    return_value := .vnone }

theorem envLookup_append (a b : Env) (nm : String) :
    envLookup (a ++ b) nm =
      match envLookup a nm with
      | some v => some v
      | none => envLookup b nm := by
  induction a with
  | nil => simp [envLookup]
  | cons p t ih =>
    obtain ⟨k, v⟩ := p
    by_cases hk : k = nm
    · simp [envLookup, hk]
    · simp [envLookup, hk, ih]

theorem hget_hset_self (h : Heap) (r : Nat) (e : Env) (hr : r < h.length) :
    hget (hset h r e) r = e := by
  simp [hget, hset, List.getElem?_set_eq_of_lt e hr]

theorem hget_append_length (h : Heap) (e : Env) :
    hget (h ++ [e]) h.length = e := by
  have hx : (h ++ [e])[h.length]? = some e := by
    rw [List.getElem?_append_right (le_refl _)]
    simp
  simp [hget, hx]

theorem exceptBind_ok {α β : Type} (a : α) (k : α → Except Err β) :
    (Except.ok a >>= k) = k a := rfl

theorem bindStep_cases (c : Code) (ds : List V) (args : List V) (parsed : Env)
    (i : Nat) (hi : i < c.argcount) (hlen : c.argcount ≤ c.varnames.length) :
    (args.length ≤ i ∧ (i : Int) < (c.argcount : Int) - (ds.length : Int) ∧
      bindStep c (some (.vtuple ds)) args parsed i = .ok parsed) ∨
    (∃ w val, c.varnames[i]? = some w ∧
      (i < args.length ∨ (c.argcount : Int) - (ds.length : Int) ≤ (i : Int)) ∧
      bindStep c (some (.vtuple ds)) args parsed i = .ok ((w, val) :: parsed)) := by
  obtain ⟨w, hw⟩ : ∃ w, c.varnames[i]? = some w :=
    ⟨c.varnames[i], List.getElem?_eq_getElem (lt_of_lt_of_le hi hlen)⟩
  by_cases hA : i < args.length
  · right
    obtain ⟨a, ha⟩ : ∃ a, args[i]? = some a :=
      ⟨args[i], List.getElem?_eq_getElem hA⟩
    exact ⟨w, a, hw, Or.inl hA, by simp [bindStep, hA, hw, ha, envInsert]⟩
  · by_cases hB : (c.argcount : Int) - (ds.length : Int) ≤ (i : Int)
    · right
      have hidx : ((i : Int) - ((c.argcount : Int) - (ds.length : Int))).toNat
          < ds.length := by omega
      obtain ⟨d, hd⟩ : ∃ d,
          ds[((i : Int) - ((c.argcount : Int) - (ds.length : Int))).toNat]?
            = some d :=
        ⟨ds[((i : Int) - ((c.argcount : Int) - (ds.length : Int))).toNat],
         List.getElem?_eq_getElem hidx⟩
      exact ⟨w, d, hw, Or.inr hB,
        by simp [bindStep, hA, hB, seqElems, hw, hd, envInsert]⟩
    · left
      exact ⟨by omega, by omega, by simp [bindStep, hA, seqElems, hB]⟩

theorem bindFold_absent (c : Code) (ds : List V) (args : List V) (nm : String)
    (hlen : c.argcount ≤ c.varnames.length) :
    ∀ (L : List Nat) (parsed : Env),
      (∀ i ∈ L, i < c.argcount) →
      (∀ i ∈ L, c.varnames[i]? = some nm →
        args.length ≤ i ∧ (i : Int) < (c.argcount : Int) - (ds.length : Int)) →
      ∃ q, L.foldlM (bindStep c (some (.vtuple ds)) args) parsed = .ok q ∧
        envLookup q nm = envLookup parsed nm := by
  intro L
  induction L with
  | nil => intro parsed _ _; exact ⟨parsed, rfl, rfl⟩
  | cons i L ih =>
    intro parsed hmem hunc
    have hi : i < c.argcount := hmem i (by simp)
    rcases bindStep_cases c ds args parsed i hi hlen with
      ⟨_, _, hstep⟩ | ⟨w, val, hw, hcov, hstep⟩
    · obtain ⟨q, hq, hlook⟩ := ih parsed (fun j hj => hmem j (by simp [hj]))
        (fun j hj hv => hunc j (by simp [hj]) hv)
      exact ⟨q, by simp [List.foldlM_cons, hstep, exceptBind_ok, hq], hlook⟩
    · have hwne : w ≠ nm := by
        intro he
        subst he
        have hcontra := hunc i (by simp) hw
        rcases hcov with hc | hc
        · omega
        · omega
      obtain ⟨q, hq, hlook⟩ := ih ((w, val) :: parsed)
        (fun j hj => hmem j (by simp [hj]))
        (fun j hj hv => hunc j (by simp [hj]) hv)
      refine ⟨q, by simp [List.foldlM_cons, hstep, exceptBind_ok, hq], ?_⟩
      rw [hlook]
      simp [envLookup, hwne]

theorem countAdvances_spec (target : Int) (xs : List V) :
    ∀ (h : Heap) (fr : FrameState) (s : List V) (m : Nat),
      fr.stack = .viter xs :: s →
      countAdvances target (xs.length + m + 1) h fr = xs.length := by
  induction xs with
  | nil =>
    intro h fr s m hs
    cases hoff : offsetToIndex fr.code.instrs target with
    | some j => simp [countAdvances, for_iter, hs, hoff]
    | none => simp [countAdvances, for_iter, hs, hoff]
  | cons v rest ih =>
    intro h fr s m hs
    have hstep : for_iter target h fr =
        .ok (h, { fr with stack := v :: .viter rest :: s }) := by
      simp [for_iter, hs]
    have hfuel : (v :: rest).length + m + 1 = (rest.length + 1 + m) + 1 := by
      simp [List.length_cons]
    rw [hfuel]
    simp only [countAdvances, hstep, hs, List.length_cons]
    rw [if_pos trivial]
    have hrw : rest.length + 1 + m = rest.length + m + 1 := by omega
    rw [hrw, ih h _ s m rfl]
    omega

/-- C10: when n exceeds the stack depth, Frame.popn does not fail: it
returns every value on the stack (deepest first) and empties the stack. -/
theorem c10_popn (n : Int) (s : List V) (hn : (s.length : Int) < n) :
    popn n s = (s.reverse, []) := by
  have h0 : 0 < n := lt_of_le_of_lt (Int.ofNat_nonneg s.length) hn
  have hlen : s.length ≤ n.toNat := by omega
  simp [popn, h0, List.take_of_length_le hlen, List.drop_eq_nil_of_le hlen]

theorem c10_popn_witness :
    ((([V.vint 1, V.vint 2] : List V).length : Int) < 5) ∧
    popn 5 [V.vint 1, V.vint 2] = (([V.vint 1, V.vint 2] : List V).reverse, []) :=
  ⟨by decide, c10_popn 5 [V.vint 1, V.vint 2] (by decide)⟩

/-- C9: with a Sequence of length m on top, unpack_sequence succeeds exactly
when m equals the requested count, replacing the Sequence by its elements
with the first element on top (so stores consume them in declaration
order); on any mismatch it raises the assert's error with the stack
untouched. -/
theorem c9_unpack (xs : List V) (count : Int) (h : Heap) (fr : FrameState)
    (s : List V) (hs : fr.stack = .vlist xs :: s) :
    ((xs.length : Int) = count →
      unpack_sequence count h fr = .ok (h, { fr with stack := xs ++ s })) ∧
    ((xs.length : Int) ≠ count →
      unpack_sequence count h fr = .error .assertionError) := by
  constructor <;> intro hc <;> simp [unpack_sequence, hs, seqElems, hc]

theorem c9_unpack_witness :
    unpack_sequence 2 [] frC9 =
      .ok ([], { frC9 with stack := [.vint 1, .vint 2] ++ [.vnone] }) ∧
    unpack_sequence 3 [] frC9 = .error .assertionError :=
  ⟨(c9_unpack [.vint 1, .vint 2] 2 [] frC9 [.vnone] rfl).1 (by decide),
   (c9_unpack [.vint 1, .vint 2] 3 [] frC9 [.vnone] rfl).2 (by decide)⟩

/-- C8: the loop protocol: acquire-iterator turns the popped Sequence into
its Iterator; advance-loop peeks the Iterator (keeping it on the stack) and
pushes the next value; on exhaustion it pushes nothing and jumps to the
exit offset, leaving the Iterator for end-loop to pop; and over a length-k
sequence exactly k successful advances happen. -/
theorem c8_loop_protocol (xs : List V) (target : Int) :
    (∀ (h : Heap) (fr : FrameState) (s : List V),
      fr.stack = .vlist xs :: s →
      get_iter h fr = .ok (h, { fr with stack := .viter xs :: s })) ∧
    (∀ (h : Heap) (fr : FrameState) (v : V) (rest s : List V),
      fr.stack = .viter (v :: rest) :: s →
      for_iter target h fr =
        .ok (h, { fr with stack := v :: .viter rest :: s })) ∧
    (∀ (h : Heap) (fr : FrameState) (s : List V) (j : Nat),
      fr.stack = .viter [] :: s →
      offsetToIndex fr.code.instrs target = some j →
      for_iter target h fr = .ok (h, { fr with ind_op := j })) ∧
    (∀ (h : Heap) (fr : FrameState) (top : V) (s : List V),
      fr.stack = top :: s →
      end_for h fr = .ok (h, { fr with stack := s })) ∧
    (∀ (h : Heap) (fr : FrameState) (s : List V) (m : Nat),
      fr.stack = .viter xs :: s →
      countAdvances target (xs.length + m + 1) h fr = xs.length) := by
  refine ⟨?_, ?_, ?_, ?_, ?_⟩
  · intro h fr s hs
    simp [get_iter, hs, iterOf]
  · intro h fr v rest s hs
    simp [for_iter, hs]
  · intro h fr s j hs hj
    simp [for_iter, hs, hj]
  · intro h fr top s hs
    simp [end_for, pop_top, hs]
  · intro h fr s m hs
    exact countAdvances_spec target xs h fr s m hs

theorem c8_loop_protocol_witness :
    for_iter 4 [] frC8 =
      .ok ([], { frC8 with
        stack := [.vint 1, .viter [.vint 2], .vstr "below"] }) ∧
    countAdvances 4 (([V.vint 1, V.vint 2] : List V).length + 0 + 1) [] frC8
      = ([V.vint 1, V.vint 2] : List V).length :=
  ⟨(c8_loop_protocol [.vint 1, .vint 2] 4).2.1 [] frC8 (.vint 1) [.vint 2]
      [.vstr "below"] rfl,
   (c8_loop_protocol [.vint 1, .vint 2] 4).2.2.2.2 [] frC8 [.vstr "below"] 0 rfl⟩

/-- C6: load_name resolves locals first, then globals, then builtins,
pushing the first binding found; a name absent from all three raises
NameError naming it, and nothing is pushed silently. -/
theorem c6_resolution (h : Heap) (fr : FrameState) (name : String) :
    (∀ v : V,
      resolveName (hget h fr.localsRef) (hget h fr.globalsRef) fr.builtins
        name = some v →
      load_name name h fr = .ok (h, { fr with stack := v :: fr.stack })) ∧
    (resolveName (hget h fr.localsRef) (hget h fr.globalsRef) fr.builtins
        name = none →
      load_name name h fr = .error (.nameError name)) := by
  constructor
  · intro v hv
    cases h1 : envLookup (hget h fr.localsRef) name <;>
      cases h2 : envLookup (hget h fr.globalsRef) name <;>
        cases h3 : envLookup fr.builtins name <;>
          simp_all [load_name, resolveName]
  · intro hv
    cases h1 : envLookup (hget h fr.localsRef) name <;>
      cases h2 : envLookup (hget h fr.globalsRef) name <;>
        cases h3 : envLookup fr.builtins name <;>
          simp_all [load_name, resolveName]

theorem c6_resolution_witness :
    load_name "x" hC6 frC6 =
      .ok (hC6, { frC6 with stack := V.vint 1 :: frC6.stack }) ∧
    load_name "b" hC6 frC6 =
      .ok (hC6, { frC6 with stack := V.vint 3 :: frC6.stack }) ∧
    load_name "zz" hC6 frC6 = .error (.nameError "zz") :=
  ⟨(c6_resolution hC6 frC6 "x").1 (.vint 1) rfl,
   (c6_resolution hC6 frC6 "b").1 (.vint 3) rfl,
   (c6_resolution hC6 frC6 "zz").2 rfl⟩

/-- C5 (recording the defect): a POP_JUMP_IF_TRUE instruction, the opname
dis emits, reaches no handler — the Frame class only defines
pop_jump_if_false and the misspelled pop_jump_is_true, so getattr(self,
opname) fails and the whole run aborts; the misspelled handler itself, were
it reachable, would pop the top and jump exactly when it is truthy. -/
theorem c5_conditional_jump_dispatch :
    runCode progC5 [] 20 = .error (.dispatchFailure "pop_jump_if_true") ∧
    pop_jump_is_true 4 [] frC5t =
      .ok ([], { frC5t with stack := [.vint 9], ind_op := 2 }) ∧
    pop_jump_is_true 4 [] frC5f = .ok ([], { frC5f with stack := [.vint 9] }) :=
  ⟨rfl, rfl, rfl⟩

/-- C4 (counterexample): an attribute entirely absent from the receiver is
fatal — the fallback branch's own getattr raises again and the run aborts
with AttributeError instead of pushing a None + raw-value pair. -/
theorem c4_counterexample :
    runCode progC4 [] 20 = .error (.attributeError "foo") := rfl

/-- C4 (amended): the None + raw-value fallback pair is pushed exactly when
the attribute exists but is not bindable (it has no descriptor get member);
when the attribute is entirely absent, AttributeError propagates. -/
theorem c4_fallback (h : Heap) (fr : FrameState) (value : V) (s : List V)
    (namei : Nat) (name : String)
    (hs : fr.stack = value :: s)
    (hname : fr.code.conames[namei >>> 1]? = some name)
    (hbit : namei % 2 = 1) :
    (∀ attr : V, getattrV value name = some attr →
      dunderGet attr value = none →
      load_attr (some namei) h fr =
        .ok (h, { fr with stack := attr :: .vnone :: s })) ∧
    (getattrV value name = none →
      load_attr (some namei) h fr = .error (.attributeError name)) := by
  constructor
  · intro attr ha hg
    simp [load_attr, hs, hname, hbit, ha, hg]
  · intro ha
    simp [load_attr, hs, hname, hbit, ha]

theorem c4_fallback_witness :
    load_attr (some 1) [] frC4w =
      .ok ([], { frC4w with stack := [.vint 5, .vnone] }) ∧
    load_attr (some 1) [] { frC4w with stack := [.vobj []] } =
      .error (.attributeError "foo") :=
  ⟨(c4_fallback [] frC4w (.vobj [("foo", .vint 5)]) [] 1 "foo" rfl rfl
      rfl).1 (.vint 5) rfl rfl,
   (c4_fallback [] { frC4w with stack := [.vobj []] } (.vobj []) [] 1 "foo"
      rfl rfl rfl).2 rfl⟩

/-- C2 (recording the defect): RETURN_CONST does not end the dispatch loop
and its constant is not what run yields — alone it falls off the end and
yields None, and with following instructions those instructions execute and
a later RETURN_VALUE decides the result; RETURN_VALUE itself does end the
loop at once with the popped top of stack. -/
theorem c2_return_const_lost :
    runCode progC2a [] 20 = .ok .vnone ∧
    runCode progC2b [] 20 = .ok (.vint 7) ∧
    runCode progC2b [] 20 ≠ .ok (.vint 42) ∧
    runCode progC2c [] 20 = .ok (.vint 5) := by
  refine ⟨rfl, rfl, ?_, rfl⟩
  intro hcontra
  rw [show runCode progC2b [] 20 = .ok (.vint 7) from rfl] at hcontra
  simp at hcontra

/-- C1 (counterexample): x is 1 when the function is built and 2 after a
later store; calling the function then sees 2 in the child's locals, so the
captured environment is not a build-time copy. -/
theorem c1_counterexample :
    runCode mainC1 [] 50 = .ok (.vint 2) ∧
    runCode mainC1 [] 50 ≠ .ok (.vint 1) := by
  refine ⟨rfl, ?_⟩
  intro hcontra
  rw [show runCode mainC1 [] 50 = .ok (.vint 2) from rfl] at hcontra
  simp at hcontra

/-- C1 (amended): dict(self.locals) runs inside the closure body, so the
defining frame's locals are copied when the function is CALLED: a store
performed after the build and before the call is visible in the child
frame's locals whenever the parsed arguments do not shadow the name. -/
theorem c1_call_time_env (name : String) (v : V) (s : List V) (h : Heap)
    (fr : FrameState) (c : Code) (ds : List V) (bins : Env) (gref : Nat)
    (args : List V) (p : Env)
    (hs : fr.stack = v :: s)
    (hr : fr.localsRef < h.length)
    (hbind : bindArgsE c (some (.vtuple ds)) args = .ok p)
    (habs : envLookup p name = none) :
    storeThenCall name h fr c ds bins gref args = .ok (some v) := by
  simp only [storeThenCall, store_name, hs]
  simp only [prepareCall, hbind, envUpdate, List.nil_append]
  rw [hget_append_length]
  rw [envLookup_append]
  rw [habs]
  rw [hget_hset_self h fr.localsRef _ hr]
  simp [envInsert, envLookup]

theorem c1_call_time_env_witness :
    storeThenCall "x" [[]] frC1 (.mk 0 [] [] []) [] [] 0 [] =
      .ok (some (.vint 7)) :=
  c1_call_time_env "x" (.vint 7) [] [[]] frC1 (.mk 0 [] [] []) [] [] 0 [] []
    rfl (by decide) rfl rfl

/-- C3 (counterexample): a call leaving a required parameter uncovered does
not fail at binding — the child frame is created and run, returning
normally when it never touches the parameter, and failing only later with
NameError at the load of the unbound name. -/
theorem c3_counterexample :
    runCode mainC3a [] 50 = .ok (.vint 99) ∧
    runCode mainC3b [] 50 = .error (.nameError "a") :=
  ⟨rfl, rfl⟩

/-- C3 (amended): the binding loop of the closure f never raises for an
uncovered required parameter: binding succeeds with the parameter simply
absent from the parsed arguments, and the child frame is still created,
its locals lacking the parameter whenever the defining frame's locals do
not happen to supply the name. -/
theorem c3_no_binding_failure (c : Code) (ds : List V) (args : List V)
    (nm : String) (h : Heap) (bins : Env) (gref lref : Nat)
    (hlen : c.argcount ≤ c.varnames.length)
    (hunc : ∀ i, i < c.argcount → c.varnames[i]? = some nm →
      args.length ≤ i ∧ (i : Int) < (c.argcount : Int) - (ds.length : Int))
    (hdef : envLookup (hget h lref) nm = none) :
    boundValueOf c ds args nm = .ok none ∧
    childLocalValue h c ds bins gref lref args nm = .ok none := by
  obtain ⟨q, hq, hlook⟩ := bindFold_absent c ds args nm hlen
    (List.range c.argcount) []
    (fun i hi => List.mem_range.mp hi)
    (fun i hi hv => hunc i (List.mem_range.mp hi) hv)
  have hbind : bindArgsE c (some (.vtuple ds)) args = .ok q := hq
  have habs : envLookup q nm = none := by
    rw [hlook]
    rfl
  constructor
  · simp [boundValueOf, hbind, habs]
  · simp only [childLocalValue, prepareCall, hbind, envUpdate,
      List.nil_append, hget_append_length, envLookup_append, habs, hdef]

theorem c3_no_binding_failure_witness :
    boundValueOf (.mk 1 ["a"] [] []) [] [] "a" = .ok none ∧
    childLocalValue [[]] (.mk 1 ["a"] [] []) [] [] 0 0 [] "a" = .ok none :=
  c3_no_binding_failure (.mk 1 ["a"] [] []) [] [] "a" [[]] [] 0 0
    (by decide)
    (fun i hi hv => by
      refine ⟨by simp, ?_⟩
      simp only [Code.argcount, List.length_nil, Nat.cast_zero] at hi ⊢
      omega)
    rfl

/-- C7: three declared parameters with defaults for the last two and one
positional argument bind to the argument and the two defaults in order,
and an explicit keyword for the third parameter (applied by
parsed_args.update(kwargs)) overrides only that slot. -/
theorem c7_defaults_and_keywords (x y z : String) (d0 d1 a0 kw : V)
    (hxy : x ≠ y) (hxz : x ≠ z) (hyz : y ≠ z) :
    (bindArgsE (.mk 3 [x, y, z] [] []) (some (.vtuple [d0, d1])) [a0]).map
      (fun p => (envLookup p x, envLookup p y, envLookup p z)) =
      .ok (some a0, some d0, some d1) ∧
    (bindArgsE (.mk 3 [x, y, z] [] []) (some (.vtuple [d0, d1])) [a0]).map
      (fun p => (envLookup (envUpdate p [(z, kw)]) x,
                 envLookup (envUpdate p [(z, kw)]) y,
                 envLookup (envUpdate p [(z, kw)]) z)) =
      .ok (some a0, some d0, some kw) := by
  have hbind : bindArgsE (.mk 3 [x, y, z] [] []) (some (.vtuple [d0, d1]))
      [a0] = .ok [(z, d1), (y, d0), (x, a0)] := rfl
  rw [hbind]
  constructor <;>
    simp [Except.map, envLookup, envUpdate, Ne.symm hxy, Ne.symm hxz,
      Ne.symm hyz]

theorem c7_defaults_and_keywords_witness :
    (bindArgsE (.mk 3 ["x", "y", "z"] [] [])
        (some (.vtuple [.vint 10, .vint 11])) [.vint 5]).map
      (fun p => (envLookup p "x", envLookup p "y", envLookup p "z")) =
      .ok (some (.vint 5), some (.vint 10), some (.vint 11)) ∧
    (bindArgsE (.mk 3 ["x", "y", "z"] [] [])
        (some (.vtuple [.vint 10, .vint 11])) [.vint 5]).map
      (fun p => (envLookup (envUpdate p [("z", .vint 77)]) "x",
                 envLookup (envUpdate p [("z", .vint 77)]) "y",
                 envLookup (envUpdate p [("z", .vint 77)]) "z")) =
      .ok (some (.vint 5), some (.vint 10), some (.vint 77)) :=
  ⟨(c7_defaults_and_keywords "x" "y" "z" (.vint 10) (.vint 11) (.vint 5)
      (.vint 77) (by decide) (by decide) (by decide)).1,
   (c7_defaults_and_keywords "x" "y" "z" (.vint 10) (.vint 11) (.vint 5)
      (.vint 77) (by decide) (by decide) (by decide)).2⟩

end PyVM
